import Mathlib

/-!
# PayPal integration back end (`App.js`)

A shallow embedding of the three client functions (`generateAccessToken`,
`createOrder`, `captureOrder`), of `handleResponse` and of the two route
handlers of `App.js`.

Modelling conventions.

* Every `await fetch(...)` is an outbound call.  The outside world is an oracle
  `Net` that, given the calls issued so far and the arguments of the next call,
  says how that call ends: with a response, or with a rejection (the network
  failed, or `fetch` refused its arguments).  The calls issued are recorded in
  a `Trace` that is threaded through every function.
* A JavaScript value that can be `undefined` is an `Option Json`
  (`none` is `undefined`).
* A rejected promise or a `throw` is `Except.error`.
* Every `fetch` settles; a connection that hangs for ever is outside the model.
  The one promise of `App.js` that can stay pending although every call was
  answered is the read of the cloned response in `captureOrder`; it is
  modelled (`Settled.pending`).
* `express.json()` (line 13) runs before the handlers.  It answers by itself,
  with status 400, a JSON body that does not parse or that is neither an object
  nor an array, so such a request never reaches a handler.  The handlers are
  modelled from `req.body` on.
* A reply is what a handler hands to Express: the arguments of
  `res.status(s).json(b)`.
* `console.log` and `console.error` output is not part of the model.
-/

namespace PayPal

/-! ## Values -/

/-- JSON values, as produced by `JSON.parse`.  A number is kept by the text that
JavaScript prints for it (the text `JSON.stringify` writes for it too), since
the program never computes with one. -/
inductive Json where
  | null
  | bool (b : Bool)
  | num (text : String)
  | str (s : String)
  | arr (items : List Json)
  | obj (fields : List (String × Json))

/-- A JavaScript value read by the program: `none` is `undefined`. -/
abbrev JSVal := Option Json

/-- What the program can throw. -/
inductive Exn where
  /-- The exception `new Error(message)`, thrown by `App.js` itself. -/
  | error (message : String)
  /-- The exception thrown by reading a property of `undefined` or `null`. -/
  | typeError
  /-- The rejection of `fetch`: the request did not get a response. -/
  | transport (detail : String)
  /-- The rejection of `response.json()`: the body is not JSON text. -/
  | invalidJson
  deriving DecidableEq, Repr

/-- Own-property lookup in the field list of an object. -/
def lookupField (key : String) : List (String × Json) → JSVal
  | [] => none
  | (k, v) :: rest => if k = key then some v else lookupField key rest

/-- String conversion of a parsed object: the inherited `toString` gives
"[object Object]"; an own member named `toString` hides it, and since a parsed
value is never callable the conversion then throws a `TypeError`. -/
def objectString (fields : List (String × Json)) : Except Exn String :=
  match lookupField "toString" fields with
  | some _ => .error .typeError
  | none => .ok "[object Object]"

mutual
/-- String conversion of a JSON value inside a template literal. -/
def Json.toJSString : Json → Except Exn String
  | .null => .ok "null"
  | .bool true => .ok "true"
  | .bool false => .ok "false"
  | .num text => .ok text
  | .str s => .ok s
  | .arr items => Json.joinItems items
  | .obj fields => objectString fields
/-- The text of `Array.prototype.join(",")`, items converted from left to
right. -/
def Json.joinItems : List Json → Except Exn String
  | [] => .ok ""
  | [x] => Json.itemString x
  | x :: y :: rest =>
    match Json.itemString x with
    | .error e => .error e
    | .ok first =>
      match Json.joinItems (y :: rest) with
      | .error e => .error e
      | .ok others => .ok (first ++ "," ++ others)
/-- The text of one array item inside `join`: `null` prints as nothing. -/
def Json.itemString : Json → Except Exn String
  | .null => .ok ""
  | .bool true => .ok "true"
  | .bool false => .ok "false"
  | .num text => .ok text
  | .str s => .ok s
  | .arr items => Json.joinItems items
  | .obj fields => objectString fields
end

/-- String conversion of a value inside a template literal, `${v}`. -/
def toJSString : JSVal → Except Exn String
  | none => .ok "undefined"
  | some j => j.toJSString

/-- The member read `v.key`, for a key that is neither an index nor an
inherited member (`product`, `cost`, `error_description` and `access_token`,
the four names read in `App.js`, are such keys): reading from `undefined` or
`null` throws, reading from an object looks the key up, and reading from any
other value gives `undefined`. -/
def getProp (v : JSVal) (key : String) : Except Exn JSVal :=
  match v with
  | none => .error .typeError
  | some .null => .error .typeError
  | some (.obj fields) => .ok (lookupField key fields)
  | some _ => .ok none

/-- Truthiness of an environment variable: it is a string or `undefined`. -/
def truthy : Option String → Bool
  | none => false
  | some s => s ≠ ""

/-- String conversion of an environment variable in a `+` concatenation. -/
def envString : Option String → String
  | none => "undefined"
  | some s => s

/-! ## Base64 of the UTF-8 bytes of a string (`Buffer.from(s).toString("base64")`) -/

/-- The UTF-8 bytes of one code point. -/
def utf8Bytes (n : Nat) : List Nat :=
  if n < 0x80 then [n]
  else if n < 0x800 then [0xC0 + n / 64, 0x80 + n % 64]
  else if n < 0x10000 then [0xE0 + n / 4096, 0x80 + n / 64 % 64, 0x80 + n % 64]
  else [0xF0 + n / 262144, 0x80 + n / 4096 % 64, 0x80 + n / 64 % 64, 0x80 + n % 64]

/-- The base64 alphabet. -/
def base64Alphabet : List Char :=
  "ABCDEFGHIJKLMNOPQRSTUVWXYZabcdefghijklmnopqrstuvwxyz0123456789+/".toList

/-- The base64 character of a six-bit number. -/
def base64Digit (i : Nat) : Char := base64Alphabet.getD i 'A'

/-- Base64 characters of a byte list, three bytes at a time, padded with `=`. -/
def base64Chars : List Nat → List Char
  | [] => []
  | [a] => [base64Digit (a / 4), base64Digit (a % 4 * 16), '=', '=']
  | [a, b] =>
    [base64Digit (a / 4), base64Digit (a % 4 * 16 + b / 16), base64Digit (b % 16 * 4), '=']
  | a :: b :: c :: rest =>
    base64Digit (a / 4) :: base64Digit (a % 4 * 16 + b / 16)
      :: base64Digit (b % 16 * 4 + c / 64) :: base64Digit (c % 64) :: base64Chars rest

/-- The expression `Buffer.from(s).toString("base64")`. -/
def base64 (s : String) : String :=
  String.mk (base64Chars (s.toList.flatMap fun c => utf8Bytes c.toNat))

/-! ## The network -/

/-- The body handed to `fetch`. -/
inductive Body where
  /-- A string literal. -/
  | text (s : String)
  /-- The text `JSON.stringify` writes for the JSON value `j`. -/
  | json (j : Json)

/-- An outbound request: the arguments of one `fetch` call. -/
structure Request where
  url : String
  method : String
  headers : List (String × String)
  body : Option Body

/-- A response of the processor.  The field `json` is what `response.json()`
resolves with, and is `none` when the body is not JSON text, in which case
`response.json()` rejects; `text` is what `response.text()` resolves with.
The field `large` says that the body is longer than what node-fetch buffers
for a branch of `response.clone()` that nobody reads (the `highWaterMark` of
the stream): the other branch then stops receiving data, and reading it never
ends. -/
structure Response where
  status : Nat
  text : String
  json : Option Json
  large : Bool

/-- How one outbound call ends. -/
inductive FetchResult where
  | response (r : Response)
  | failure (detail : String)

/-- The outbound calls issued so far, oldest first. -/
abbrev Trace := List Request

/-- The outside world: how the next call ends, given the calls issued before. -/
abbrev Net := Trace → Request → FetchResult

/-- How an awaited promise ends. -/
inductive Settled (α : Type) where
  | resolved (value : α)
  | rejected (e : Exn)
  /-- The promise never settles: the `await` never returns. -/
  | pending

/-- The call `await fetch(url, options)`: it is recorded in the trace, and it
resolves with a response or rejects. -/
def fetch (net : Net) (req : Request) (tr : Trace) : Except Exn Response × Trace :=
  match net tr req with
  | .response r => (.ok r, tr ++ [req])
  | .failure detail => (.error (.transport detail), tr ++ [req])

/-! ## Configuration -/

/-- The two environment variables read at line 7. -/
structure Config where
  PAYPAL_CLIENT_ID : Option String
  PAYPAL_CLIENT_SECRET : Option String

/-- The constant `base`. -/
def base : String := "https://api-m.sandbox.paypal.com"

/-! ## `generateAccessToken` -/

/-- The request of lines 27-33. -/
def tokenRequest (cfg : Config) : Request :=
  { url := base ++ "/v1/oauth2/token"
    method := "POST"
    headers :=
      [("Authorization",
        "Basic " ++ base64 (envString cfg.PAYPAL_CLIENT_ID ++ ":"
          ++ envString cfg.PAYPAL_CLIENT_SECRET))]
    body := some (.text "grant_type=client_credentials") }

/-- The function `generateAccessToken` (lines 19-47).  The `catch` block logs
and rethrows, so every exception of the `try` block leaves unchanged. -/
def generateAccessToken (cfg : Config) (net : Net) (tr : Trace) : Except Exn JSVal × Trace :=
  if !truthy cfg.PAYPAL_CLIENT_ID || !truthy cfg.PAYPAL_CLIENT_SECRET then
    (.error (.error "MISSING_API_CREDENTIALS"), tr)
  else
    match fetch net (tokenRequest cfg) tr with
    | (.error e, tr1) => (.error e, tr1)
    | (.ok response, tr1) =>
      match response.json with
      | none => (.error .invalidJson, tr1)
      | some data =>
        if response.status ≠ 200 then
          match getProp (some data) "error_description" with
          | .error e => (.error e, tr1)
          | .ok description =>
            match toJSString description with
            | .error e => (.error e, tr1)
            | .ok text => (.error (.error ("Failed to generate Access Token: " ++ text)), tr1)
        else
          match getProp (some data) "access_token" with
          | .error e => (.error e, tr1)
          | .ok token => (.ok token, tr1)

/-! ## `handleResponse`, `createOrder`, `captureOrder` -/

/-- The object `{ jsonResponse, httpStatusCode }`. -/
structure OrderResult where
  jsonResponse : Json
  httpStatusCode : Nat

/-- The function `handleResponse` (lines 108-121). -/
def handleResponse (response : Response) : Except Exn OrderResult :=
  if 200 ≤ response.status ∧ response.status < 300 then
    match response.json with
    | none => .error .invalidJson
    | some jsonResponse => .ok { jsonResponse := jsonResponse, httpStatusCode := response.status }
  else
    .error (.error ("Request failed with status " ++ toString response.status ++ ": "
      ++ response.text))

/-- The JSON value that `JSON.stringify(payload)` writes for the object
`payload` of lines 56-66: a property whose value is `undefined` is left out. -/
def orderPayload (cost : JSVal) : Json :=
  .obj
    [("intent", .str "CAPTURE"),
     ("purchase_units",
      .arr [.obj [("amount",
        .obj (("currency_code", .str "USD") ::
          match cost with
          | none => []
          | some value => [("value", value)]))]])]

/-- The request of lines 68-75; `bearer` is the text of `${accessToken}`. -/
def createRequest (bearer : String) (cost : JSVal) : Request :=
  { url := base ++ "/v2/checkout/orders"
    method := "POST"
    headers :=
      [("Content-Type", "application/json"),
       ("Authorization", "Bearer " ++ bearer)]
    body := some (.json (orderPayload cost)) }

/-- The function `createOrder` (lines 53-78); `data` is `req.body`.  The
payload literal (lines 56-66) is evaluated before the arguments of `fetch`, so
`data.product.cost` is read before `${accessToken}` is converted. -/
def createOrder (cfg : Config) (net : Net) (data : JSVal) (tr : Trace) :
    Except Exn OrderResult × Trace :=
  match generateAccessToken cfg net tr with
  | (.error e, tr1) => (.error e, tr1)
  | (.ok accessToken, tr1) =>
    match getProp data "product" with
    | .error e => (.error e, tr1)
    | .ok product =>
      match getProp product "cost" with
      | .error e => (.error e, tr1)
      | .ok cost =>
        match toJSString accessToken with
        | .error e => (.error e, tr1)
        | .ok bearer =>
          match fetch net (createRequest bearer cost) tr1 with
          | (.error e, tr2) => (.error e, tr2)
          | (.ok response, tr2) => (handleResponse response, tr2)

/-- The request of lines 88-94; `bearer` is the text of `${accessToken}`. -/
def captureRequest (bearer : String) (orderID : String) : Request :=
  { url := base ++ "/v2/checkout/orders/" ++ orderID ++ "/capture"
    method := "POST"
    headers :=
      [("Content-Type", "application/json"),
       ("Authorization", "Bearer " ++ bearer)]
    body := none }

/-- The function `captureOrder` (lines 84-106).  It clones the response
(line 97) and reads only the clone (line 100); the original is never read, so
on a large body the read of the clone never ends. -/
def captureOrder (cfg : Config) (net : Net) (orderID : String) (tr : Trace) :
    Settled OrderResult × Trace :=
  match generateAccessToken cfg net tr with
  | (.error e, tr1) => (.rejected e, tr1)
  | (.ok accessToken, tr1) =>
    match toJSString accessToken with
    | .error e => (.rejected e, tr1)
    | .ok bearer =>
      match fetch net (captureRequest bearer orderID) tr1 with
      | (.error e, tr2) => (.rejected e, tr2)
      | (.ok response, tr2) =>
        if response.large then (.pending, tr2)
        else
          match response.json with
          | none => (.rejected .invalidJson, tr2)
          | some jsonResponse =>
            (.resolved { jsonResponse := jsonResponse, httpStatusCode := response.status },
              tr2)

/-! ## The routes -/

/-- What a handler hands to Express: the arguments of
`res.status(status).json(body)`. -/
structure Reply where
  status : Nat
  body : Json

/-- The handler of `POST /api/orders` (lines 125-134); `body` is `req.body`. -/
def postOrders (cfg : Config) (net : Net) (body : JSVal) (tr : Trace) : Reply × Trace :=
  match createOrder cfg net body tr with
  | (.ok r, tr1) => ({ status := r.httpStatusCode, body := r.jsonResponse }, tr1)
  | (.error _, tr1) =>
    ({ status := 500, body := .obj [("error", .str "Failed to create order.")] }, tr1)

/-- The handler of `POST /api/orders/:orderID/capture` (lines 136-146).  The
result is `none` when `await captureOrder(orderID)` never returns: the handler
then never replies. -/
def postCapture (cfg : Config) (net : Net) (orderID : String) (tr : Trace) :
    Option Reply × Trace :=
  match captureOrder cfg net orderID tr with
  | (.resolved r, tr1) => (some { status := r.httpStatusCode, body := r.jsonResponse }, tr1)
  | (.rejected _, tr1) =>
    (some { status := 500, body := .obj [("error", .str "Failed to capture order.")] }, tr1)
  | (.pending, tr1) => (none, tr1)

/-! ## Sample worlds -/

/-- A configuration with both credentials. -/
def sampleConfig : Config :=
  { PAYPAL_CLIENT_ID := some "id", PAYPAL_CLIENT_SECRET := some "secret" }

/-- A configuration without a client secret. -/
def noSecretConfig : Config :=
  { PAYPAL_CLIENT_ID := some "id", PAYPAL_CLIENT_SECRET := none }

/-- A world whose token endpoint answers `tokenResponse` and whose other
endpoints answer `orderResponse`. -/
def mockNet (tokenResponse orderResponse : Response) : Net :=
  fun _ req =>
    if req.url = base ++ "/v1/oauth2/token" then .response tokenResponse
    else .response orderResponse

/-- A token response with status 200 and body `{"access_token":"T"}`. -/
def tokenOk : Response :=
  { status := 200, text := "\x7b\"access_token\":\"T\"\x7d",
    json := some (.obj [("access_token", .str "T")]), large := false }

/-- A token response with status 503 and a body that is not JSON. -/
def tokenUnavailable : Response :=
  { status := 503, text := "<html>Service Unavailable</html>", json := none, large := false }

/-- A token response with status 401 and body
`{"error_description":"Client Authentication failed"}`. -/
def tokenRejected : Response :=
  { status := 401, text := "\x7b\"error_description\":\"Client Authentication failed\"\x7d",
    json := some (.obj [("error_description", .str "Client Authentication failed")]),
    large := false }

/-- A token response with status 200 and body `{}`. -/
def tokenEmpty : Response :=
  { status := 200, text := "\x7b\x7d", json := some (.obj []), large := false }

/-- A token response with status 200 and body `{"access_token":{"toString":1}}`. -/
def tokenObject : Response :=
  { status := 200, text := "\x7b\"access_token\":\x7b\"toString\":1\x7d\x7d",
    json := some (.obj [("access_token", .obj [("toString", .num "1")])]), large := false }

/-- A processor response with status 201 and body `{"id":"O1"}`. -/
def orderCreated : Response :=
  { status := 201, text := "\x7b\"id\":\"O1\"\x7d", json := some (.obj [("id", .str "O1")]),
    large := false }

/-- A processor response with status 200 and a body that is not JSON. -/
def orderNotJson : Response :=
  { status := 200, text := "OK", json := none, large := false }

/-- A processor response with status 400 and body `{"name":"INVALID_REQUEST"}`. -/
def orderRefused : Response :=
  { status := 400, text := "\x7b\"name\":\"INVALID_REQUEST\"\x7d",
    json := some (.obj [("name", .str "INVALID_REQUEST")]), large := false }

/-- A processor response with status 422 and body `{"error":"DECLINED"}`. -/
def captureDeclined : Response :=
  { status := 422, text := "\x7b\"error\":\"DECLINED\"\x7d",
    json := some (.obj [("error", .str "DECLINED")]), large := false }

/-- A processor response with status 200 and a JSON body of more than 100000
bytes: the text `{"id":"O1"}` followed by 100000 blanks. -/
def captureLarge : Response :=
  { status := 200, text := "\x7b\"id\":\"O1\"\x7d" ++ String.mk (List.replicate 100000 ' '),
    json := some (.obj [("id", .str "O1")]), large := true }

/-- The request body `{"product":{}}`: a product without a cost. -/
def bodyWithoutCost : JSVal :=
  some (.obj [("product", .obj [])])

/-- The request body `{}`: no product. -/
def bodyWithoutProduct : JSVal :=
  some (.obj [])

/-- The request body `{"product":{"cost":"10.00"}}`. -/
def sampleBody : JSVal :=
  some (.obj [("product", .obj [("cost", .str "10.00")])])

/-! ## Facts about `generateAccessToken` -/

theorem generateAccessToken_of_response (cfg : Config) (net : Net) (tr : Trace) (r : Response)
    (hid : truthy cfg.PAYPAL_CLIENT_ID = true) (hsecret : truthy cfg.PAYPAL_CLIENT_SECRET = true)
    (hnet : net tr (tokenRequest cfg) = .response r) :
    generateAccessToken cfg net tr =
      match r.json with
      | none => (.error .invalidJson, tr ++ [tokenRequest cfg])
      | some data =>
        if r.status ≠ 200 then
          match getProp (some data) "error_description" with
          | .error e => (.error e, tr ++ [tokenRequest cfg])
          | .ok description =>
            match toJSString description with
            | .error e => (.error e, tr ++ [tokenRequest cfg])
            | .ok text =>
              (.error (.error ("Failed to generate Access Token: " ++ text)),
                tr ++ [tokenRequest cfg])
        else
          match getProp (some data) "access_token" with
          | .error e => (.error e, tr ++ [tokenRequest cfg])
          | .ok token => (.ok token, tr ++ [tokenRequest cfg]) := by
  simp [generateAccessToken, fetch, hid, hsecret, hnet]

theorem getProp_ok_of_ne_null (d : Json) (key : String) (hd : d ≠ .null) :
    ∃ v, getProp (some d) key = .ok v := by
  cases d <;> simp [getProp] at hd ⊢

theorem generateAccessToken_non200_raises (cfg : Config) (net : Net) (tr : Trace)
    (r : Response)
    (hid : truthy cfg.PAYPAL_CLIENT_ID = true) (hsecret : truthy cfg.PAYPAL_CLIENT_SECRET = true)
    (hnet : net tr (tokenRequest cfg) = .response r) (hstatus : r.status ≠ 200) :
    ∃ e, generateAccessToken cfg net tr = (.error e, tr ++ [tokenRequest cfg]) := by
  rw [generateAccessToken_of_response cfg net tr r hid hsecret hnet]
  cases r.json with
  | none => exact ⟨_, rfl⟩
  | some data =>
    simp only [hstatus, ne_eq, not_false_eq_true, if_true]
    cases getProp (some data) "error_description" with
    | error e => exact ⟨_, rfl⟩
    | ok description =>
      simp only
      cases toJSString description with
      | error e => exact ⟨_, rfl⟩
      | ok text => exact ⟨_, rfl⟩

theorem generateAccessToken_trace (cfg : Config) (net : Net) (tr : Trace) :
    (generateAccessToken cfg net tr).2 =
      if truthy cfg.PAYPAL_CLIENT_ID = true ∧ truthy cfg.PAYPAL_CLIENT_SECRET = true then
        tr ++ [tokenRequest cfg]
      else tr := by
  cases hid : truthy cfg.PAYPAL_CLIENT_ID <;> cases hsecret : truthy cfg.PAYPAL_CLIENT_SECRET
  case true.true =>
    cases hnet : net tr (tokenRequest cfg) with
    | failure detail => simp [generateAccessToken, fetch, hid, hsecret, hnet]
    | response r =>
      by_cases hs : r.status = 200
      · rw [generateAccessToken_of_response cfg net tr r hid hsecret hnet]
        cases r.json with
        | none => simp
        | some data => cases hg : getProp (some data) "access_token" <;> simp [hs, hg]
      · obtain ⟨e, he⟩ := generateAccessToken_non200_raises cfg net tr r hid hsecret hnet hs
        simp [he]
  all_goals simp [generateAccessToken, hid, hsecret]

theorem generateAccessToken_ok_inv (cfg : Config) (net : Net) (tr tr1 : Trace) (token : JSVal)
    (h : generateAccessToken cfg net tr = (.ok token, tr1)) :
    truthy cfg.PAYPAL_CLIENT_ID = true ∧ truthy cfg.PAYPAL_CLIENT_SECRET = true ∧
      tr1 = tr ++ [tokenRequest cfg] ∧
      ∃ r data, net tr (tokenRequest cfg) = .response r ∧ r.status = 200 ∧
        r.json = some data ∧ getProp (some data) "access_token" = .ok token := by
  cases hid : truthy cfg.PAYPAL_CLIENT_ID <;> cases hsecret : truthy cfg.PAYPAL_CLIENT_SECRET
  case true.true =>
    cases hnet : net tr (tokenRequest cfg) with
    | failure detail => simp [generateAccessToken, fetch, hid, hsecret, hnet] at h
    | response r =>
      by_cases hs : r.status = 200
      · rw [generateAccessToken_of_response cfg net tr r hid hsecret hnet] at h
        cases hjson : r.json with
        | none => simp [hjson] at h
        | some data =>
          cases hg : getProp (some data) "access_token" with
          | error e => simp [hjson, hs, hg] at h
          | ok v =>
            simp [hjson, hs, hg] at h
            exact ⟨rfl, rfl, h.2.symm, r, data, rfl, hs, hjson, by rw [hg, h.1]⟩
      · obtain ⟨e, he⟩ := generateAccessToken_non200_raises cfg net tr r hid hsecret hnet hs
        rw [he] at h
        simp at h
  all_goals simp [generateAccessToken, hid, hsecret] at h

/-! ## Facts about `createOrder`, `captureOrder` and the routes -/

theorem createOrder_of_response (cfg : Config) (net : Net) (data : JSVal) (tr tr1 : Trace)
    (token product cost : JSVal) (bearer : String) (r : Response)
    (hgen : generateAccessToken cfg net tr = (.ok token, tr1))
    (hproduct : getProp data "product" = .ok product)
    (hcost : getProp product "cost" = .ok cost)
    (hbearer : toJSString token = .ok bearer)
    (hnet : net tr1 (createRequest bearer cost) = .response r) :
    createOrder cfg net data tr = (handleResponse r, tr1 ++ [createRequest bearer cost]) := by
  simp [createOrder, fetch, hgen, hproduct, hcost, hbearer, hnet]

theorem captureOrder_of_response (cfg : Config) (net : Net) (orderID : String) (tr tr1 : Trace)
    (token : JSVal) (bearer : String) (r : Response)
    (hgen : generateAccessToken cfg net tr = (.ok token, tr1))
    (hbearer : toJSString token = .ok bearer)
    (hnet : net tr1 (captureRequest bearer orderID) = .response r) :
    captureOrder cfg net orderID tr =
      if r.large = true then (.pending, tr1 ++ [captureRequest bearer orderID])
      else
        match r.json with
        | none => (.rejected .invalidJson, tr1 ++ [captureRequest bearer orderID])
        | some jsonResponse =>
          (.resolved { jsonResponse := jsonResponse, httpStatusCode := r.status },
            tr1 ++ [captureRequest bearer orderID]) := by
  simp [captureOrder, fetch, hgen, hbearer, hnet]

theorem createOrder_of_token_error (cfg : Config) (net : Net) (data : JSVal) (tr : Trace)
    (e : Exn) (h : (generateAccessToken cfg net tr).1 = .error e) :
    createOrder cfg net data tr = (.error e, (generateAccessToken cfg net tr).2) := by
  unfold createOrder
  cases hg : generateAccessToken cfg net tr with
  | mk result tr1 =>
    rw [hg] at h
    simp only at h
    subst h
    rfl

theorem captureOrder_of_token_error (cfg : Config) (net : Net) (orderID : String) (tr : Trace)
    (e : Exn) (h : (generateAccessToken cfg net tr).1 = .error e) :
    captureOrder cfg net orderID tr = (.rejected e, (generateAccessToken cfg net tr).2) := by
  unfold captureOrder
  cases hg : generateAccessToken cfg net tr with
  | mk result tr1 =>
    rw [hg] at h
    simp only at h
    subst h
    rfl

theorem getProp_cost_of_no_product (product : JSVal)
    (h : product = none ∨ product = some .null) :
    getProp product "cost" = .error .typeError := by
  rcases h with h | h <;> subst h <;> rfl

theorem createOrder_without_product (cfg : Config) (net : Net) (data : JSVal) (tr : Trace)
    (h : ∀ product, getProp data "product" = .ok product →
      product = none ∨ product = some .null) :
    ∃ e, (createOrder cfg net data tr).1 = .error e := by
  unfold createOrder
  cases hg : generateAccessToken cfg net tr with
  | mk result tr1 =>
    cases result with
    | error e => exact ⟨e, rfl⟩
    | ok token =>
      cases hp : getProp data "product" with
      | error e => exact ⟨e, rfl⟩
      | ok product =>
        refine ⟨.typeError, ?_⟩
        simp [getProp_cost_of_no_product product (h product hp)]

theorem postOrders_of_error (cfg : Config) (net : Net) (body : JSVal) (tr : Trace) (e : Exn)
    (h : (createOrder cfg net body tr).1 = .error e) :
    (postOrders cfg net body tr).1
      = { status := 500, body := .obj [("error", .str "Failed to create order.")] } := by
  unfold postOrders
  cases hc : createOrder cfg net body tr with
  | mk result tr1 =>
    rw [hc] at h
    simp only at h
    subst h
    rfl

theorem postCapture_of_error (cfg : Config) (net : Net) (orderID : String) (tr : Trace) (e : Exn)
    (h : (captureOrder cfg net orderID tr).1 = .rejected e) :
    (postCapture cfg net orderID tr).1
      = some { status := 500, body := .obj [("error", .str "Failed to capture order.")] } := by
  unfold postCapture
  cases hc : captureOrder cfg net orderID tr with
  | mk result tr1 =>
    rw [hc] at h
    simp only at h
    subst h
    rfl

/-! ## Claims about `generateAccessToken` -/

/-- C4: when the client identifier or the client secret is absent or empty,
`generateAccessToken` fails with the error `MISSING_API_CREDENTIALS`, and the
trace of outbound calls is left as it was: no call is issued. -/
theorem generateAccessToken_missing_credentials (cfg : Config) (net : Net) (tr : Trace)
    (h : cfg.PAYPAL_CLIENT_ID = none ∨ cfg.PAYPAL_CLIENT_ID = some "" ∨
      cfg.PAYPAL_CLIENT_SECRET = none ∨ cfg.PAYPAL_CLIENT_SECRET = some "") :
    generateAccessToken cfg net tr = (.error (.error "MISSING_API_CREDENTIALS"), tr) := by
  unfold generateAccessToken
  rcases h with h | h | h | h <;> simp [h, truthy]

/-- C4, at a configuration without a client secret. -/
theorem generateAccessToken_missing_credentials_witness :
    generateAccessToken noSecretConfig (mockNet tokenOk orderCreated) [] =
      (.error (.error "MISSING_API_CREDENTIALS"), []) :=
  generateAccessToken_missing_credentials _ _ _ (Or.inr (Or.inr (Or.inl rfl)))

/-- C5 as stated fails: a token response with status 503 whose body is not JSON
makes `generateAccessToken` fail with the rejection of `response.json()`, which
is not the error "Failed to generate Access Token: ..." and carries no
description. -/
theorem tokenUnavailable_raises_parse_error :
    (generateAccessToken sampleConfig
        (mockNet tokenUnavailable orderCreated) []).1 = .error .invalidJson ∧
      ¬ ∃ message, (generateAccessToken sampleConfig
        (mockNet tokenUnavailable orderCreated) []).1 = .error (.error message) := by
  refine ⟨rfl, ?_⟩
  rintro ⟨message, h⟩
  have h2 : (generateAccessToken sampleConfig
        (mockNet tokenUnavailable orderCreated) []).1 = .error .invalidJson := rfl
  rw [h2] at h
  cases h

/-- C5, amended: with both credentials present, for every token response with a
status other than 200, `generateAccessToken` fails after its one token request:
with the rejection of `response.json()` when the body is not JSON; otherwise,
when the body is a JSON value other than `null`, with the error whose message
is "Failed to generate Access Token: " followed by the `error_description`
member of the body converted to a string, or with the `TypeError` of that
conversion when it throws.  For a body that is an object, the message ends
with the member itself when it is a string, and with "undefined" when the
object has no such member, and the conversion throws when the member is an
object with an own `toString` member.  For the body `null` it fails with the
`TypeError` of reading a member of `null`. -/
theorem generateAccessToken_non200 (cfg : Config) (net : Net) (tr : Trace) (r : Response)
    (hid : truthy cfg.PAYPAL_CLIENT_ID = true) (hsecret : truthy cfg.PAYPAL_CLIENT_SECRET = true)
    (hnet : net tr (tokenRequest cfg) = .response r) (hstatus : r.status ≠ 200) :
    (r.json = none →
      generateAccessToken cfg net tr = (.error .invalidJson, tr ++ [tokenRequest cfg])) ∧
    (∀ data, r.json = some data → data ≠ .null →
      ∃ description, getProp (some data) "error_description" = .ok description ∧
        (∀ text, toJSString description = .ok text →
          generateAccessToken cfg net tr =
            (.error (.error ("Failed to generate Access Token: " ++ text)),
              tr ++ [tokenRequest cfg])) ∧
        (∀ e, toJSString description = .error e →
          generateAccessToken cfg net tr = (.error e, tr ++ [tokenRequest cfg]))) ∧
    (∀ fields s, r.json = some (.obj fields) →
      lookupField "error_description" fields = some (.str s) →
      generateAccessToken cfg net tr =
        (.error (.error ("Failed to generate Access Token: " ++ s)),
          tr ++ [tokenRequest cfg])) ∧
    (∀ fields, r.json = some (.obj fields) →
      lookupField "error_description" fields = none →
      generateAccessToken cfg net tr =
        (.error (.error "Failed to generate Access Token: undefined"),
          tr ++ [tokenRequest cfg])) ∧
    (r.json = some .null →
      generateAccessToken cfg net tr = (.error .typeError, tr ++ [tokenRequest cfg])) ∧
    (∀ fields inner v, r.json = some (.obj fields) →
      lookupField "error_description" fields = some (.obj inner) →
      lookupField "toString" inner = some v →
      generateAccessToken cfg net tr = (.error .typeError, tr ++ [tokenRequest cfg])) := by
  rw [generateAccessToken_of_response cfg net tr r hid hsecret hnet]
  refine ⟨?_, ?_, ?_, ?_, ?_, ?_⟩
  · intro hjson
    rw [hjson]
  · intro data hjson hdata
    obtain ⟨v, hv⟩ := getProp_ok_of_ne_null data "error_description" hdata
    refine ⟨v, hv, ?_, ?_⟩
    · intro text htext
      simp [hjson, hstatus, hv, htext]
    · intro e he
      simp [hjson, hstatus, hv, he]
  · intro fields s hjson hfield
    simp [hjson, hstatus, getProp, hfield, toJSString, Json.toJSString]
  · intro fields hjson hfield
    simp [hjson, hstatus, getProp, hfield, toJSString]
  · intro hjson
    simp [hjson, hstatus, getProp]
  · intro fields inner v hjson hfield hinner
    simp [hjson, hstatus, getProp, hfield, toJSString, Json.toJSString, objectString, hinner]

/-- C5, amended, at a 401 response with body
`{"error_description":"Client Authentication failed"}`. -/
theorem generateAccessToken_non200_witness :
    generateAccessToken sampleConfig
        (mockNet tokenRejected orderCreated) [] =
      (.error (.error "Failed to generate Access Token: Client Authentication failed"),
        [tokenRequest sampleConfig]) :=
  (generateAccessToken_non200 sampleConfig (mockNet tokenRejected orderCreated) []
    tokenRejected rfl rfl rfl (by decide)).2.2.1
    [("error_description", .str "Client Authentication failed")]
    "Client Authentication failed" rfl rfl

/-- C6 as stated fails: with both credentials present, a token response with
status 200 and body `{}` makes `generateAccessToken` return `undefined`, which
is not a non-empty string. -/
theorem tokenEmpty_returns_undefined :
    (generateAccessToken sampleConfig
        (mockNet tokenEmpty orderCreated) []).1
        = .ok none ∧
      ¬ ∃ token, token ≠ "" ∧ (generateAccessToken sampleConfig
        (mockNet tokenEmpty orderCreated) []).1
        = .ok (some (.str token)) := by
  refine ⟨rfl, ?_⟩
  rintro ⟨token, -, h⟩
  have h2 : (generateAccessToken sampleConfig
        (mockNet tokenEmpty orderCreated) []).1
        = .ok none := rfl
  rw [h2] at h
  injection h with h
  cases h

/-- C6, amended: with both credentials present, for every token response with
status 200 whose body parses as a JSON value other than `null`,
`generateAccessToken` returns the `access_token` member of the body as it is
(`undefined` when the body has none); in particular it returns a non-empty
string exactly when that member is one. -/
theorem generateAccessToken_200 (cfg : Config) (net : Net) (tr : Trace) (r : Response)
    (data : Json)
    (hid : truthy cfg.PAYPAL_CLIENT_ID = true) (hsecret : truthy cfg.PAYPAL_CLIENT_SECRET = true)
    (hnet : net tr (tokenRequest cfg) = .response r) (hstatus : r.status = 200)
    (hjson : r.json = some data) (hdata : data ≠ .null) :
    ∃ token, getProp (some data) "access_token" = .ok token ∧
      generateAccessToken cfg net tr = (.ok token, tr ++ [tokenRequest cfg]) := by
  obtain ⟨v, hv⟩ := getProp_ok_of_ne_null data "access_token" hdata
  refine ⟨v, hv, ?_⟩
  rw [generateAccessToken_of_response cfg net tr r hid hsecret hnet, hjson]
  simp [hstatus, hv]

/-- C6, amended, at a 200 response with body `{"access_token":"T"}`. -/
theorem generateAccessToken_200_witness :
    generateAccessToken sampleConfig (mockNet tokenOk orderCreated) [] =
      (.ok (some (.str "T")), [tokenRequest sampleConfig]) := by
  obtain ⟨token, ht, h⟩ := generateAccessToken_200 sampleConfig (mockNet tokenOk orderCreated)
    [] tokenOk (.obj [("access_token", .str "T")]) rfl rfl rfl rfl rfl (by simp)
  have ht2 : token = some (.str "T") := by
    have : getProp (some (.obj [("access_token", .str "T")])) "access_token"
        = .ok (some (.str "T")) := rfl
    rw [this] at ht
    injection ht with ht
    exact ht.symm
  rw [h, ht2]
  rfl

/-! ## Claims about the order client and the routes -/

/-- C1 as stated fails: with a token obtained, a processor response to the
order-creation call with status 200 whose body is not JSON makes `createOrder`
raise (the rejection of `response.json()`), although 200 <= 200 < 300. -/
theorem createOrder_2xx_not_json :
    (200 ≤ orderNotJson.status ∧ orderNotJson.status < 300) ∧
      (createOrder sampleConfig (mockNet tokenOk orderNotJson) sampleBody []).1
        = .error .invalidJson ∧
      ¬ ∃ result, (createOrder sampleConfig (mockNet tokenOk orderNotJson) sampleBody []).1
        = .ok result := by
  refine ⟨by decide, rfl, ?_⟩
  rintro ⟨result, h⟩
  have h2 : (createOrder sampleConfig (mockNet tokenOk orderNotJson) sampleBody []).1
      = .error .invalidJson := rfl
  rw [h2] at h
  cases h

/-- C1, amended: with a token obtained, for every processor response `r` to the
order-creation call, `createOrder` succeeds if and only if
200 <= `r.status` < 300 and the body parses as JSON; it then returns the parsed
body with `r.status`.  With a status in that range and a body that is not JSON
it raises the rejection of `response.json()`.  For every other status it raises
the error whose message is "Request failed with status ", the status, ": " and
the raw response text. -/
theorem createOrder_result (cfg : Config) (net : Net) (data : JSVal) (tr tr1 : Trace)
    (token product cost : JSVal) (bearer : String) (r : Response)
    (hgen : generateAccessToken cfg net tr = (.ok token, tr1))
    (hproduct : getProp data "product" = .ok product)
    (hcost : getProp product "cost" = .ok cost)
    (hbearer : toJSString token = .ok bearer)
    (hnet : net tr1 (createRequest bearer cost) = .response r) :
    ((∃ result, (createOrder cfg net data tr).1 = .ok result) ↔
        (200 ≤ r.status ∧ r.status < 300 ∧ ∃ body, r.json = some body)) ∧
      (∀ body, 200 ≤ r.status → r.status < 300 → r.json = some body →
        (createOrder cfg net data tr).1
          = .ok { jsonResponse := body, httpStatusCode := r.status }) ∧
      (200 ≤ r.status → r.status < 300 → r.json = none →
        (createOrder cfg net data tr).1 = .error .invalidJson) ∧
      (¬ (200 ≤ r.status ∧ r.status < 300) →
        (createOrder cfg net data tr).1
          = .error (.error ("Request failed with status " ++ toString r.status ++ ": "
              ++ r.text))) := by
  rw [createOrder_of_response cfg net data tr tr1 token product cost bearer r hgen hproduct
    hcost hbearer hnet]
  unfold handleResponse
  by_cases hs : 200 ≤ r.status ∧ r.status < 300
  · cases hj : r.json with
    | none => simp [hs]
    | some body => simp [hs]
  · simp only [hs, if_false]
    refine ⟨?_, ?_, ?_, ?_⟩
    · constructor
      · rintro ⟨result, h⟩
        cases h
      · rintro ⟨h1, h2, -⟩
        exact absurd ⟨h1, h2⟩ hs
    · intro body h1 h2
      exact absurd ⟨h1, h2⟩ hs
    · intro h1 h2
      exact absurd ⟨h1, h2⟩ hs
    · intro _
      trivial

/-- C1, amended, at the processor response 201 with body `{"id":"O1"}`: the
result is that body with status 201. -/
theorem createOrder_result_witness :
    (createOrder sampleConfig (mockNet tokenOk orderCreated) sampleBody []).1
      = .ok { jsonResponse := .obj [("id", .str "O1")], httpStatusCode := 201 } :=
  (createOrder_result sampleConfig (mockNet tokenOk orderCreated) sampleBody []
    [tokenRequest sampleConfig] (some (.str "T")) (some (.obj [("cost", .str "10.00")]))
    (some (.str "10.00")) "T" orderCreated rfl rfl rfl rfl rfl).2.1
    (.obj [("id", .str "O1")]) (by decide) (by decide) rfl

/-- C2, at the input where the code departs from it: both credentials set, the
token endpoint answering 200 with `{"access_token":"T"}`, and the capture
endpoint answering 200 with a JSON body of more than 100000 bytes that parses
to `{"id":"O1"}`.  Both calls are issued and answered, yet `captureOrder("O1")`
never returns, because only the clone of the response is read, and the route
never replies. -/
theorem captureOrder_large_body :
    captureLarge.status = 200 ∧ captureLarge.json = some (.obj [("id", .str "O1")]) ∧
      captureOrder sampleConfig (mockNet tokenOk captureLarge) "O1" []
        = (.pending,
            [tokenRequest sampleConfig,
             { url := "https://api-m.sandbox.paypal.com/v2/checkout/orders/O1/capture"
               method := "POST"
               headers :=
                 [("Content-Type", "application/json"), ("Authorization", "Bearer T")]
               body := none }]) ∧
      (postCapture sampleConfig (mockNet tokenOk captureLarge) "O1" []).1 = none :=
  ⟨rfl, rfl, rfl, rfl⟩

/-- C3: the route `POST /api/orders` replies with status 500 and the body
`{"error":"Failed to create order."}` whenever `createOrder` raises, whatever
the error, so the reply is the same for any two errors and holds none of their
detail; and `createOrder` does raise when a credential is absent or empty,
when the token endpoint answers a status other than 200, when the token call
or the order call fails at network level, when the processor answers the order
call with a status outside 200..299, when the request body has no `product`,
and when the token cannot be converted to a string for the header. -/
theorem postOrders_error (cfg : Config) (net : Net) (body : JSVal) (tr : Trace) :
    (∀ e, (createOrder cfg net body tr).1 = .error e →
      (postOrders cfg net body tr).1
        = { status := 500, body := .obj [("error", .str "Failed to create order.")] }) ∧
    (((cfg.PAYPAL_CLIENT_ID = none ∨ cfg.PAYPAL_CLIENT_ID = some "" ∨
          cfg.PAYPAL_CLIENT_SECRET = none ∨ cfg.PAYPAL_CLIENT_SECRET = some "") ∨
        (∃ r, truthy cfg.PAYPAL_CLIENT_ID = true ∧ truthy cfg.PAYPAL_CLIENT_SECRET = true ∧
          net tr (tokenRequest cfg) = .response r ∧ r.status ≠ 200) ∨
        (∃ detail, truthy cfg.PAYPAL_CLIENT_ID = true ∧
          truthy cfg.PAYPAL_CLIENT_SECRET = true ∧
          net tr (tokenRequest cfg) = .failure detail) ∨
        (∃ token tr1 product cost bearer detail,
          generateAccessToken cfg net tr = (.ok token, tr1) ∧
          getProp body "product" = .ok product ∧ getProp product "cost" = .ok cost ∧
          toJSString token = .ok bearer ∧
          net tr1 (createRequest bearer cost) = .failure detail) ∨
        (∃ token tr1 product cost bearer r,
          generateAccessToken cfg net tr = (.ok token, tr1) ∧
          getProp body "product" = .ok product ∧ getProp product "cost" = .ok cost ∧
          toJSString token = .ok bearer ∧
          net tr1 (createRequest bearer cost) = .response r ∧
          ¬ (200 ≤ r.status ∧ r.status < 300)) ∨
        (∀ product, getProp body "product" = .ok product →
          product = none ∨ product = some .null) ∨
        (∃ token tr1 product cost e, generateAccessToken cfg net tr = (.ok token, tr1) ∧
          getProp body "product" = .ok product ∧ getProp product "cost" = .ok cost ∧
          toJSString token = .error e)) →
      ∃ e, (createOrder cfg net body tr).1 = .error e) := by
  refine ⟨fun e h => postOrders_of_error cfg net body tr e h, ?_⟩
  have token_error : ∀ e, (generateAccessToken cfg net tr).1 = .error e →
      ∃ e, (createOrder cfg net body tr).1 = .error e := by
    intro e he
    exact ⟨e, by rw [createOrder_of_token_error cfg net body tr e he]⟩
  rintro (h | ⟨r, hid, hsecret, hnet, hstatus⟩ | ⟨detail, hid, hsecret, hnet⟩ |
    ⟨token, tr1, product, cost, bearer, detail, hgen, hproduct, hcost, hbearer, hnet⟩ |
    ⟨token, tr1, product, cost, bearer, r, hgen, hproduct, hcost, hbearer, hnet, hstatus⟩ |
    h | ⟨token, tr1, product, cost, e, hgen, hproduct, hcost, hbearer⟩)
  · apply token_error (.error "MISSING_API_CREDENTIALS")
    unfold generateAccessToken
    rcases h with h | h | h | h <;> simp [h, truthy]
  · obtain ⟨e, he⟩ := generateAccessToken_non200_raises cfg net tr r hid hsecret hnet hstatus
    exact token_error e (by rw [he])
  · apply token_error (.transport detail)
    simp [generateAccessToken, fetch, hid, hsecret, hnet]
  · exact ⟨.transport detail,
      by simp [createOrder, fetch, hgen, hproduct, hcost, hbearer, hnet]⟩
  · rw [createOrder_of_response cfg net body tr tr1 token product cost bearer r hgen hproduct
      hcost hbearer hnet]
    exact ⟨.error ("Request failed with status " ++ toString r.status ++ ": " ++ r.text),
      by simp [handleResponse, hstatus]⟩
  · exact createOrder_without_product cfg net body tr h
  · exact ⟨e, by simp [createOrder, hgen, hproduct, hcost, hbearer]⟩

/-- C3, at a processor answering 400 to the order-creation call: `createOrder`
raises and the route replies with the fixed 500. -/
theorem postOrders_error_witness :
    (createOrder sampleConfig (mockNet tokenOk orderRefused) sampleBody []).1
        = .error (.error "Request failed with status 400: \x7b\"name\":\"INVALID_REQUEST\"\x7d") ∧
      (postOrders sampleConfig (mockNet tokenOk orderRefused) sampleBody []).1
        = { status := 500, body := .obj [("error", .str "Failed to create order.")] } :=
  ⟨rfl, (postOrders_error sampleConfig (mockNet tokenOk orderRefused) sampleBody []).1 _ rfl⟩

/-- C7 as stated fails: in a configuration without a client secret,
`captureOrder` raises `MISSING_API_CREDENTIALS` and the route replies with the
fixed 500, although no outbound call was issued and nothing was parsed. -/
theorem captureOrder_missing_credentials :
    captureOrder noSecretConfig (mockNet tokenOk captureDeclined) "O1" []
        = (.rejected (.error "MISSING_API_CREDENTIALS"), []) ∧
      (postCapture noSecretConfig (mockNet tokenOk captureDeclined) "O1" []).1
        = some { status := 500, body := .obj [("error", .str "Failed to capture order.")] } :=
  ⟨rfl, rfl⟩

/-- C7, amended: whenever `captureOrder` raises, the route replies with the
fixed 500 and `{"error":"Failed to capture order."}`, and the error is the one
`generateAccessToken` raised (missing credentials, rejected token exchange, or
a failure of the token call), or the `TypeError` of converting the token to a
string for the header, or the rejection of the capture call, or the rejection
of `response.json()` on its response.  A token that is an object with an own
`toString` member gives that `TypeError` before any capture call.  With a
token obtained and converted, a capture response whose body is read to the end
and is JSON makes `captureOrder` return that body with the response's status,
whatever the status, and the route relay both. -/
theorem captureOrder_error_cases (cfg : Config) (net : Net) (orderID : String) (tr : Trace) :
    (∀ e, (captureOrder cfg net orderID tr).1 = .rejected e →
      (postCapture cfg net orderID tr).1
          = some { status := 500, body := .obj [("error", .str "Failed to capture order.")] } ∧
        ((generateAccessToken cfg net tr).1 = .error e ∨
          ∃ token tr1, generateAccessToken cfg net tr = (.ok token, tr1) ∧
            (toJSString token = .error e ∨
              ∃ bearer, toJSString token = .ok bearer ∧
                ((∃ detail, net tr1 (captureRequest bearer orderID) = .failure detail ∧
                    e = .transport detail) ∨
                  (∃ r, net tr1 (captureRequest bearer orderID) = .response r ∧
                    r.large = false ∧ r.json = none ∧ e = .invalidJson))))) ∧
    (∀ tr1 fields v, generateAccessToken cfg net tr = (.ok (some (.obj fields)), tr1) →
      lookupField "toString" fields = some v →
      captureOrder cfg net orderID tr = (.rejected .typeError, tr1)) ∧
    (∀ token tr1 bearer r b, generateAccessToken cfg net tr = (.ok token, tr1) →
      toJSString token = .ok bearer →
      net tr1 (captureRequest bearer orderID) = .response r →
      r.large = false → r.json = some b →
      (captureOrder cfg net orderID tr).1
          = .resolved { jsonResponse := b, httpStatusCode := r.status } ∧
        (postCapture cfg net orderID tr).1 = some { status := r.status, body := b }) := by
  refine ⟨?_, ?_, ?_⟩
  · intro e h
    refine ⟨postCapture_of_error cfg net orderID tr e h, ?_⟩
    cases hg : generateAccessToken cfg net tr with
    | mk result tr1 =>
      cases result with
      | error e1 =>
        left
        have h2 := captureOrder_of_token_error cfg net orderID tr e1 (by rw [hg])
        rw [h2] at h
        simp only [Settled.rejected.injEq] at h
        simp [h]
      | ok token =>
        right
        refine ⟨token, tr1, rfl, ?_⟩
        cases hb : toJSString token with
        | error e2 =>
          left
          simp [captureOrder, hg, hb] at h
          rw [h]
        | ok bearer =>
          right
          refine ⟨bearer, rfl, ?_⟩
          cases hnet : net tr1 (captureRequest bearer orderID) with
          | failure detail =>
            left
            refine ⟨detail, rfl, ?_⟩
            simp [captureOrder, fetch, hg, hb, hnet] at h
            exact h.symm
          | response r =>
            right
            have h2 := captureOrder_of_response cfg net orderID tr tr1 token bearer r hg hb hnet
            rw [h2] at h
            cases hl : r.large with
            | true => simp [hl] at h
            | false =>
              cases hj : r.json with
              | none =>
                simp [hl, hj] at h
                exact ⟨r, rfl, hl, hj, h.symm⟩
              | some b => simp [hl, hj] at h
  · intro tr1 fields v hgen hv
    simp [captureOrder, hgen, toJSString, Json.toJSString, objectString, hv]
  · intro token tr1 bearer r b hgen hbearer hnet hlarge hjson
    have h := captureOrder_of_response cfg net orderID tr tr1 token bearer r hgen hbearer hnet
    simp only [hlarge, hjson] at h
    simp [postCapture, h]

/-- C7, amended, in a configuration without a client secret. -/
theorem captureOrder_error_cases_witness :
    (postCapture noSecretConfig (mockNet tokenOk captureDeclined) "O1" []).1
        = some { status := 500, body := .obj [("error", .str "Failed to capture order.")] } ∧
      (generateAccessToken noSecretConfig (mockNet tokenOk captureDeclined) []).1
        = .error (.error "MISSING_API_CREDENTIALS") ∧
      captureOrder sampleConfig (mockNet tokenObject captureDeclined) "O1" []
        = (.rejected .typeError, [tokenRequest sampleConfig]) ∧
      (captureOrder sampleConfig (mockNet tokenOk captureDeclined) "O1" []).1
        = .resolved { jsonResponse := .obj [("error", .str "DECLINED")],
                      httpStatusCode := 422 } :=
  ⟨((captureOrder_error_cases noSecretConfig (mockNet tokenOk captureDeclined) "O1" []).1
      (.error "MISSING_API_CREDENTIALS") rfl).1,
    rfl,
    (captureOrder_error_cases sampleConfig (mockNet tokenObject captureDeclined) "O1" []).2.1
      [tokenRequest sampleConfig] [("toString", .num "1")] (.num "1") rfl rfl,
    ((captureOrder_error_cases sampleConfig (mockNet tokenOk captureDeclined) "O1" []).2.2
      (some (.str "T")) [tokenRequest sampleConfig] "T" captureDeclined
      (.obj [("error", .str "DECLINED")]) rfl rfl rfl rfl rfl).1⟩

/-- C8 as stated fails: for the request body `{"product":{}}`, which has a
product without a cost, and a processor answering 201 with `{"id":"O1"}` to the
order-creation call, the route replies 201 with that body, not the generic
500. -/
theorem postOrders_without_cost_relays :
    getProp bodyWithoutCost "product" = .ok (some (.obj [])) ∧
      getProp (some (.obj [])) "cost" = .ok none ∧
      (postOrders sampleConfig (mockNet tokenOk orderCreated) bodyWithoutCost []).1
        = { status := 201, body := .obj [("id", .str "O1")] } ∧
      (postOrders sampleConfig (mockNet tokenOk orderCreated) bodyWithoutCost []).1.status
        ≠ 500 :=
  ⟨rfl, rfl, rfl, by decide⟩

/-- C8, amended: for every request body that is a JSON object whose `product`
is missing or `null`, the route `POST /api/orders` replies with status 500 and
the generic body, however the processor answers.  For a body whose `product`
is present without a `cost`, with a token obtained and converted, the order
request is sent with an amount that holds `currency_code` only, no `value`,
and the route relays what `handleResponse` makes of the processor's response:
its status and body when that returns, the generic 500 when that raises. -/
theorem postOrders_lacking_cost (cfg : Config) (net : Net) (body : JSVal) (tr : Trace) :
    (∀ fields, body = some (.obj fields) →
      (lookupField "product" fields = none ∨ lookupField "product" fields = some .null) →
      (postOrders cfg net body tr).1
        = { status := 500, body := .obj [("error", .str "Failed to create order.")] }) ∧
    (∀ token tr1 bearer product,
      generateAccessToken cfg net tr = (.ok token, tr1) →
      toJSString token = .ok bearer →
      getProp body "product" = .ok product →
      getProp product "cost" = .ok none →
      (postOrders cfg net body tr).2 = tr1 ++
        [{ url := "https://api-m.sandbox.paypal.com/v2/checkout/orders"
           method := "POST"
           headers :=
             [("Content-Type", "application/json"), ("Authorization", "Bearer " ++ bearer)]
           body := some (.json (.obj
             [("intent", .str "CAPTURE"),
              ("purchase_units",
                .arr [.obj [("amount", .obj [("currency_code", .str "USD")])]])])) }] ∧
      ∀ r, net tr1 (createRequest bearer none) = .response r →
        (postOrders cfg net body tr).1 =
          match handleResponse r with
          | .ok result => { status := result.httpStatusCode, body := result.jsonResponse }
          | .error _ =>
            { status := 500, body := .obj [("error", .str "Failed to create order.")] }) := by
  constructor
  · intro fields hbody hproduct
    subst hbody
    have h : ∀ product, getProp (some (.obj fields)) "product" = .ok product →
        product = none ∨ product = some .null := by
      intro product hp
      simp only [getProp, Except.ok.injEq] at hp
      rw [← hp]
      exact hproduct
    obtain ⟨e, he⟩ := createOrder_without_product cfg net (some (.obj fields)) tr h
    exact postOrders_of_error cfg net (some (.obj fields)) tr e he
  · intro token tr1 bearer product hgen hbearer hproduct hcost
    constructor
    · unfold postOrders createOrder fetch
      simp only [hgen, hproduct, hcost, hbearer]
      cases net tr1 (createRequest bearer none) with
      | failure detail => rfl
      | response r =>
        dsimp only
        cases handleResponse r <;> rfl
    · intro r hnet
      have h := createOrder_of_response cfg net body tr tr1 token product none bearer r hgen
        hproduct hcost hbearer hnet
      unfold postOrders
      rw [h]
      cases handleResponse r <;> simp

/-- C8, amended, at the request body `{}`. -/
theorem postOrders_lacking_cost_witness :
    (postOrders sampleConfig (mockNet tokenOk orderCreated) bodyWithoutProduct []).1
      = { status := 500, body := .obj [("error", .str "Failed to create order.")] } :=
  (postOrders_lacking_cost sampleConfig (mockNet tokenOk orderCreated) bodyWithoutProduct []).1
    [] rfl (Or.inl rfl)

/-- C9: for every cost value `c` found at `data.product.cost`, with the token
just returned by `generateAccessToken` and converted to the string `bearer`,
the one request `createOrder` issues after the token request is a POST to the
order-creation endpoint whose payload has intent "CAPTURE" and exactly one
purchase unit, with amount currency_code "USD" and value `c` unchanged, and
whose Authorization header is "Bearer " followed by `bearer`; `bearer` is the
token itself when the token is a string, and "undefined" when it is
`undefined`. -/
theorem createOrder_request (cfg : Config) (net : Net) (data : JSVal) (tr tr1 : Trace)
    (token product : JSVal) (c : Json) (bearer : String)
    (hgen : generateAccessToken cfg net tr = (.ok token, tr1))
    (hproduct : getProp data "product" = .ok product)
    (hcost : getProp product "cost" = .ok (some c))
    (hbearer : toJSString token = .ok bearer) :
    (createOrder cfg net data tr).2 = tr1 ++
      [{ url := "https://api-m.sandbox.paypal.com/v2/checkout/orders"
         method := "POST"
         headers :=
           [("Content-Type", "application/json"),
            ("Authorization", "Bearer " ++ bearer)]
         body := some (.json (.obj
           [("intent", .str "CAPTURE"),
            ("purchase_units",
              .arr [.obj [("amount",
                .obj [("currency_code", .str "USD"), ("value", c)])]])])) }] ∧
      (∀ t, token = some (.str t) → bearer = t) ∧
      (token = none → bearer = "undefined") := by
  refine ⟨?_, ?_, ?_⟩
  · unfold createOrder fetch
    simp only [hgen, hproduct, hcost, hbearer]
    cases net tr1 (createRequest bearer (some c)) <;> rfl
  · intro t ht
    subst ht
    simp only [toJSString, Json.toJSString, Except.ok.injEq] at hbearer
    exact hbearer.symm
  · intro ht
    subst ht
    simp only [toJSString, Except.ok.injEq] at hbearer
    exact hbearer.symm

/-- C9, at the request body `{"product":{"cost":"10.00"}}` and the token "T". -/
theorem createOrder_request_witness :
    (createOrder sampleConfig (mockNet tokenOk orderCreated) sampleBody []).2 =
      [tokenRequest sampleConfig] ++
      [{ url := "https://api-m.sandbox.paypal.com/v2/checkout/orders"
         method := "POST"
         headers := [("Content-Type", "application/json"), ("Authorization", "Bearer T")]
         body := some (.json (.obj
           [("intent", .str "CAPTURE"),
            ("purchase_units",
              .arr [.obj [("amount",
                .obj [("currency_code", .str "USD"), ("value", .str "10.00")])]])])) }] :=
  (createOrder_request sampleConfig (mockNet tokenOk orderCreated) sampleBody []
    [tokenRequest sampleConfig] (some (.str "T")) (some (.obj [("cost", .str "10.00")]))
    (.str "10.00") "T" rfl rfl rfl rfl).1

/-- C10 as stated fails: in a configuration without a client secret, an
invocation of `createOrder` or of `captureOrder` issues no outbound call at
all, so not exactly one token request. -/
theorem no_token_request_without_credentials :
    (createOrder noSecretConfig (mockNet tokenOk orderCreated) sampleBody []).2 = [] ∧
      (captureOrder noSecretConfig (mockNet tokenOk captureDeclined) "O1" []).2 = [] :=
  ⟨rfl, rfl⟩

/-- C10, amended: every invocation of `createOrder` or `captureOrder` starts
with `generateAccessToken`, which issues exactly one request, to the token
endpoint, when both credentials are present, and none otherwise.  When it
fails, the operation fails with the same error and issues no further call.
When it returns a token, that token is the `access_token` member of the
response to the token request of this invocation, and the operation issues at
most one further call: a POST to the order endpoint whose Authorization header
is "Bearer " followed by that token converted to a string (the token itself
when it is a string).  `captureOrder` issues that call exactly when the
conversion succeeds. -/
theorem order_calls (cfg : Config) (net : Net) (data : JSVal) (orderID : String) (tr : Trace) :
    (tokenRequest cfg).url = "https://api-m.sandbox.paypal.com/v1/oauth2/token" ∧
    ((truthy cfg.PAYPAL_CLIENT_ID = true ∧ truthy cfg.PAYPAL_CLIENT_SECRET = true) →
      (generateAccessToken cfg net tr).2 = tr ++ [tokenRequest cfg]) ∧
    (¬ (truthy cfg.PAYPAL_CLIENT_ID = true ∧ truthy cfg.PAYPAL_CLIENT_SECRET = true) →
      (generateAccessToken cfg net tr).2 = tr) ∧
    (∀ e, (generateAccessToken cfg net tr).1 = .error e →
      createOrder cfg net data tr = (.error e, (generateAccessToken cfg net tr).2) ∧
      captureOrder cfg net orderID tr = (.rejected e, (generateAccessToken cfg net tr).2)) ∧
    (∀ token, (generateAccessToken cfg net tr).1 = .ok token →
      (∃ r body, net tr (tokenRequest cfg) = .response r ∧ r.json = some body ∧
        getProp (some body) "access_token" = .ok token) ∧
      ((createOrder cfg net data tr).2 = tr ++ [tokenRequest cfg] ∨
        ∃ bearer payload, toJSString token = .ok bearer ∧
          (createOrder cfg net data tr).2 = tr ++
            [tokenRequest cfg,
             { url := "https://api-m.sandbox.paypal.com/v2/checkout/orders"
               method := "POST"
               headers :=
                 [("Content-Type", "application/json"),
                  ("Authorization", "Bearer " ++ bearer)]
               body := some (.json payload) }]) ∧
      (∀ bearer, toJSString token = .ok bearer →
        (captureOrder cfg net orderID tr).2 = tr ++
          [tokenRequest cfg,
           { url := "https://api-m.sandbox.paypal.com/v2/checkout/orders/" ++ orderID
               ++ "/capture"
             method := "POST"
             headers :=
               [("Content-Type", "application/json"),
                ("Authorization", "Bearer " ++ bearer)]
             body := none }]) ∧
      (∀ e, toJSString token = .error e →
        captureOrder cfg net orderID tr = (.rejected e, tr ++ [tokenRequest cfg])) ∧
      (∀ t, token = some (.str t) → toJSString token = .ok t)) := by
  refine ⟨rfl, ?_, ?_, ?_, ?_⟩
  · intro h
    rw [generateAccessToken_trace, if_pos h]
  · intro h
    rw [generateAccessToken_trace, if_neg h]
  · intro e he
    exact ⟨createOrder_of_token_error cfg net data tr e he,
      captureOrder_of_token_error cfg net orderID tr e he⟩
  · intro token ht
    have hg : generateAccessToken cfg net tr = (.ok token, (generateAccessToken cfg net tr).2) := by
      rw [← ht]
    obtain ⟨-, -, htr, r, body, hnet, -, hjson, hprop⟩ :=
      generateAccessToken_ok_inv cfg net tr _ token hg
    rw [htr] at hg
    refine ⟨⟨r, body, hnet, hjson, hprop⟩, ?_, ?_, ?_, ?_⟩
    · cases hp : getProp data "product" with
      | error e =>
        left
        simp [createOrder, hg, hp]
      | ok product =>
        cases hc : getProp product "cost" with
        | error e =>
          left
          simp [createOrder, hg, hp, hc]
        | ok cost =>
          cases hb : toJSString token with
          | error e =>
            left
            simp [createOrder, hg, hp, hc, hb]
          | ok bearer =>
            right
            refine ⟨bearer, orderPayload cost, rfl, ?_⟩
            unfold createOrder fetch
            simp only [hg, hp, hc, hb]
            cases net (tr ++ [tokenRequest cfg]) (createRequest bearer cost) with
            | failure detail =>
              simp only [List.append_assoc, List.singleton_append]
              rfl
            | response r2 =>
              simp only [List.append_assoc, List.singleton_append]
              rfl
    · intro bearer hb
      unfold captureOrder fetch
      simp only [hg, hb]
      cases net (tr ++ [tokenRequest cfg]) (captureRequest bearer orderID) with
      | failure detail =>
        simp only [List.append_assoc, List.singleton_append]
        rfl
      | response r2 =>
        simp only
        cases r2.large with
        | true =>
          simp only [if_true, List.append_assoc, List.singleton_append]
          rfl
        | false =>
          cases r2.json with
          | none =>
            simp only [Bool.false_eq_true, if_false, List.append_assoc, List.singleton_append]
            rfl
          | some b =>
            simp only [Bool.false_eq_true, if_false, List.append_assoc, List.singleton_append]
            rfl
    · intro e he
      simp [captureOrder, hg, he]
    · intro t ht2
      subst ht2
      rfl

/-- C10, amended, at an invocation of each operation with both credentials
present: the outbound calls are the token request followed by one order
request whose Authorization header is "Bearer T", the token of the token
response. -/
theorem order_calls_witness :
    (createOrder sampleConfig (mockNet tokenOk orderCreated) sampleBody []).2
        = [tokenRequest sampleConfig,
           { url := "https://api-m.sandbox.paypal.com/v2/checkout/orders"
             method := "POST"
             headers := [("Content-Type", "application/json"), ("Authorization", "Bearer T")]
             body := some (.json (orderPayload (some (.str "10.00")))) }] ∧
      (captureOrder sampleConfig (mockNet tokenOk orderCreated) "O1" []).2
        = [tokenRequest sampleConfig,
           { url := "https://api-m.sandbox.paypal.com/v2/checkout/orders/O1/capture"
             method := "POST"
             headers := [("Content-Type", "application/json"), ("Authorization", "Bearer T")]
             body := none }] :=
  ⟨rfl, ((order_calls sampleConfig (mockNet tokenOk orderCreated) sampleBody "O1" []).2.2.2.2
    (some (.str "T")) rfl).2.2.1 "T" rfl⟩

end PayPal
